import Mathlib

/-!
Shallow embedding of the tour sequencer in `src/hooks/useTour.ts` of the
`ichurit-client` repository, together with theorems checking the
specification's claims about it.

Modelling conventions:
* `TourState` mirrors the `TourState` interface of the hook.  `stepIndex`
  is an `Int` because the JavaScript computation `index + (action ===
  ACTIONS.PREV ? -1 : 1)` can produce `-1`.
* `tourKey` is assigned from `Date.now()` in the source; every operation
  that assigns it here takes the current clock reading as an explicit
  `now : Nat` parameter.
* `localStorage.setItem` calls are modelled as an explicit list of
  (key, value) writes returned next to the new state.
* `navigate(path)` and `setTimeout(..., 500)` are modelled as fields
  `navigatedTo : Option String` and `timerScheduled : Bool` of the
  result; the body of the scheduled timer is the separate function
  `resumeAfterDelay`.
* JavaScript truthiness of the optional `navigateTo` string is modelled
  by `truthyPath` (the empty string is falsy).
-/

/-- One tour step, mirroring the fields used from `react-joyride`'s `Step`
plus the custom `navigateTo` property. -/
structure TourStep where
  target : String
  content : String
  placement : String
  disableBeacon : Bool := false
  navigateTo : Option String := none
deriving DecidableEq, Repr

/-- The state managed by the `useTour` hook (interface `TourState`). -/
structure TourState where
  run : Bool
  steps : List TourStep
  stepIndex : Int
  tourKey : Nat
deriving DecidableEq, Repr

/-- Joyride actions relevant to the callback (`ACTIONS`). -/
inductive JAction where
  | start | next | prev | close | skip | stop | update
deriving DecidableEq, Repr

/-- Joyride statuses relevant to the callback (`STATUS`). -/
inductive JStatus where
  | idle | ready | waiting | running | paused | skipped | finished | error
deriving DecidableEq, Repr

/-- Joyride event types relevant to the callback (`EVENTS`). -/
inductive JEventType where
  | tourStart | stepBefore | beacon | tooltip | stepAfter | tourEnd
  | tourStatus | targetNotFound
deriving DecidableEq, Repr

/-- The fields of `CallBackProps` destructured by `handleJoyrideCallback`. -/
structure JoyrideEvent where
  action : JAction
  index : Int
  status : JStatus
  type : JEventType
deriving DecidableEq, Repr

/-- A `localStorage.setItem(key, value)` call. -/
def StorageWrite := String × String
deriving DecidableEq, Repr

/-- JavaScript truthiness of an optional string: `undefined` and the empty
string are falsy. -/
def truthyPath : Option String → Option String
  | none => none
  | some p => if p = "" then none else some p

/-- The default step list `INITIAL_STEPS` of the hook. -/
def INITIAL_STEPS : List TourStep :=
  [ { target := "[data-tour=\"navbar\"]",
      content := "This is the main navigation bar. You can use it to move between different sections of the application.",
      placement := "bottom",
      disableBeacon := true },
    { target := "[data-tour=\"navbar-dashboard\"]",
      content := "Click here to go to your Dashboard.",
      placement := "bottom" },
    { target := "[data-tour=\"navbar-profile\"]",
      content := "Click here to view your Profile.",
      placement := "bottom" },
    { target := "[data-tour=\"navbar-settings\"]",
      content := "Click here to manage your Settings.",
      placement := "bottom" },
    { target := "[data-tour=\"dashboard-title\"]",
      content := "Welcome to the Dashboard! This is where you get an overview of your activities.",
      placement := "bottom",
      navigateTo := some "/" },
    { target := "[data-tour=\"dashboard-content\"]",
      content := "This area shows key information and summaries.",
      placement := "top" },
    { target := "[data-tour=\"profile-title\"]",
      content := "This is your Profile page.",
      placement := "bottom",
      navigateTo := some "/profile" },
    { target := "[data-tour=\"profile-content\"]",
      content := "Here you can view and edit your personal information.",
      placement := "top" },
    { target := "[data-tour=\"settings-title\"]",
      content := "This is the Settings page.",
      placement := "bottom",
      navigateTo := some "/settings" },
    { target := "[data-tour=\"settings-content\"]",
      content := "Configure application preferences and settings here.",
      placement := "top" },
    { target := "body",
      content := "You have completed the tour! Feel free to explore the application.",
      placement := "center",
      navigateTo := some "/" } ]

/-- Result of a sequencer operation that may navigate and schedule the
500ms resume timer. -/
structure NavResult where
  state : TourState
  navigatedTo : Option String
  timerScheduled : Bool
deriving DecidableEq, Repr

/-- `handleNavigation(navigateToPath)`: if the current location differs
from the target path, pause the tour (`run := false`), navigate, and
schedule the 500ms timer; otherwise do nothing. -/
def handleNavigation (pathname navigateToPath : String) (s : TourState) :
    NavResult :=
  if pathname ≠ navigateToPath then
    { state := { s with run := false },
      navigatedTo := some navigateToPath,
      timerScheduled := true }
  else
    { state := s, navigatedTo := none, timerScheduled := false }

/-- The body of the `setTimeout` inside `handleNavigation`: resume the
tour and regenerate the render key with the clock reading at firing
time. -/
def resumeAfterDelay (now : Nat) (s : TourState) : TourState :=
  { s with run := true, tourKey := now }

/-- JavaScript array indexing `steps[stepIndex]` for a possibly negative
index: out-of-range yields `undefined`, i.e. `none`. -/
def getStepAt (steps : List TourStep) (i : Int) : Option TourStep :=
  if 0 ≤ i then steps[i.toNat]? else none

/-- The `useEffect` of the hook: when the tour runs and `steps[stepIndex]`
is an existing step with a truthy `navigateTo`, call `handleNavigation`
with it; otherwise nothing happens. -/
def navigationEffect (pathname : String) (s : TourState) : NavResult :=
  match (if s.run then getStepAt s.steps s.stepIndex else none) with
  | some st =>
    match truthyPath st.navigateTo with
    | some p => handleNavigation pathname p s
    | none => { state := s, navigatedTo := none, timerScheduled := false }
  | none => { state := s, navigatedTo := none, timerScheduled := false }

/-- `const nextStepIndex = index + (action === ACTIONS.PREV ? -1 : 1);` -/
def nextStepIndex (action : JAction) (index : Int) : Int :=
  index + (if action = JAction.prev then -1 else 1)

/-- `handleJoyrideCallback(data)`: finished/skipped statuses stop the tour
and persist the viewed flag; step-after and target-not-found events
either stop on a close action (persisting the flag) or advance the
index; everything else is ignored.  The second component collects the
`localStorage.setItem` calls performed. -/
def handleJoyrideCallback (data : JoyrideEvent) (s : TourState) :
    TourState × List StorageWrite :=
  if data.status = JStatus.finished ∨ data.status = JStatus.skipped then
    ({ s with run := false, stepIndex := 0 }, [("tourViewed", "true")])
  else if data.type = JEventType.stepAfter ∨
      data.type = JEventType.targetNotFound then
    let next := nextStepIndex data.action data.index
    if data.action = JAction.close then
      ({ s with run := false }, [("tourViewed", "true")])
    else
      ({ s with stepIndex := next, run := true }, [])
  else
    (s, [])

/-- The effective step list of `startTour`: a non-empty override is used
as is; an empty one falls back to `INITIAL_STEPS`. -/
def effectiveStepsOf (startSteps : List TourStep) : List TourStep :=
  if startSteps.length > 0 then startSteps else INITIAL_STEPS

/-- The truthy `navigateTo` of the first step of a list, if any. -/
def firstStepNav (steps : List TourStep) : Option String :=
  match steps.head? with
  | some st => truthyPath st.navigateTo
  | none => none

/-- `startTour(startSteps = initialSteps)`: reset to index 0 with the
effective step list and a fresh key, paused; then either run
`handleNavigation` for the first step's required page (when it is truthy
and differs from the current location) or activate immediately. -/
def startTour (initialSteps : List TourStep)
    (startSteps : List TourStep := initialSteps)
    (pathname : String) (now : Nat) : NavResult :=
  let effSteps := effectiveStepsOf startSteps
  let base : TourState :=
    { run := false, steps := effSteps, stepIndex := 0, tourKey := now }
  match firstStepNav effSteps with
  | some p =>
    if pathname ≠ p then
      handleNavigation pathname p base
    else
      { state := { base with run := true },
        navigatedTo := none, timerScheduled := false }
  | none =>
    { state := { base with run := true },
      navigatedTo := none, timerScheduled := false }

/-- `addSteps(newSteps)`: append to the step sequence and regenerate the
render key. -/
def addSteps (newSteps : List TourStep) (now : Nat) (s : TourState) :
    TourState :=
  { s with steps := s.steps ++ newSteps, tourKey := now }

/-- `setSteps(newSteps)`: replace the step sequence and regenerate the
render key. -/
def setSteps (newSteps : List TourStep) (now : Nat) (s : TourState) :
    TourState :=
  { s with steps := newSteps, tourKey := now }

/-- `setRun(isRunning)`: set the run flag. -/
def setRun (isRunning : Bool) (s : TourState) : TourState :=
  { s with run := isRunning }

/-- One sequencer operation, for reasoning about traces. -/
inductive TourOp where
  | startOp (startSteps : List TourStep) (pathname : String)
  | callbackOp (e : JoyrideEvent)
  | addOp (newSteps : List TourStep)
  | setStepsOp (newSteps : List TourStep)
  | navEffectOp (pathname : String)
  | resumeOp
  | setRunOp (isRunning : Bool)
deriving DecidableEq, Repr

/-- Apply one operation at clock reading `now`. -/
def applyOp (initialSteps : List TourStep) (op : TourOp) (now : Nat)
    (s : TourState) : TourState :=
  match op with
  | TourOp.startOp ss path => (startTour initialSteps ss path now).state
  | TourOp.callbackOp e => (handleJoyrideCallback e s).1
  | TourOp.addOp ns => addSteps ns now s
  | TourOp.setStepsOp ns => setSteps ns now s
  | TourOp.navEffectOp path => (navigationEffect path s).state
  | TourOp.resumeOp => resumeAfterDelay now s
  | TourOp.setRunOp b => setRun b s

/-- Whether an operation assigns a new render key (`tourKey := Date.now()`
in the source). -/
def assignsKey : TourOp → Bool
  | TourOp.startOp _ _ => true
  | TourOp.addOp _ => true
  | TourOp.setStepsOp _ => true
  | TourOp.resumeOp => true
  | _ => false

/-- The render keys observed right after each key-assigning operation of
a trace of (operation, clock reading) pairs. -/
def keysAlong (initialSteps : List TourStep) :
    List (TourOp × Nat) → TourState → List Nat
  | [], _ => []
  | (op, now) :: rest, s =>
    let s' := applyOp initialSteps op now s
    (if assignsKey op then [s'.tourKey] else []) ++
      keysAlong initialSteps rest s'

/-- Sample step with no navigation requirement, for concrete instances. -/
def sampleStep : TourStep :=
  { target := "t", content := "c", placement := "bottom" }

/-- Sample step requiring the dashboard page, for concrete instances. -/
def sampleNavStep : TourStep :=
  { target := "t", content := "c", placement := "bottom",
    navigateTo := some "/" }

/-- C3: a FINISHED or SKIPPED status delivered to `handleJoyrideCallback`
stops the tour (`run = false`) and persists the `tourViewed` flag as
`"true"`. -/
theorem finished_or_skipped_stops_and_persists (s : TourState)
    (e : JoyrideEvent)
    (h : e.status = JStatus.finished ∨ e.status = JStatus.skipped) :
    (handleJoyrideCallback e s).1.run = false ∧
    (handleJoyrideCallback e s).2 = [("tourViewed", "true")] := by
  unfold handleJoyrideCallback
  rw [if_pos h]
  exact ⟨rfl, rfl⟩

/-- C3 witness: the theorem applied at a concrete finished event. -/
theorem finished_or_skipped_stops_and_persists_witness :
    (handleJoyrideCallback
        ⟨JAction.next, 3, JStatus.finished, JEventType.tourEnd⟩
        ⟨true, [sampleStep], 3, 0⟩).1.run = false ∧
    (handleJoyrideCallback
        ⟨JAction.next, 3, JStatus.finished, JEventType.tourEnd⟩
        ⟨true, [sampleStep], 3, 0⟩).2 = [("tourViewed", "true")] :=
  finished_or_skipped_stops_and_persists _ _ (Or.inl rfl)

/-- C4: a CLOSE action delivered with a step-after or target-not-found
event (and no finished/skipped status) stops the tour and writes the
persisted `tourViewed` flag exactly once: the write list of the
transition is the single entry `("tourViewed", "true")`. -/
theorem close_stops_and_persists_once (s : TourState) (e : JoyrideEvent)
    (ht : e.type = JEventType.stepAfter ∨ e.type = JEventType.targetNotFound)
    (hs : ¬(e.status = JStatus.finished ∨ e.status = JStatus.skipped))
    (ha : e.action = JAction.close) :
    (handleJoyrideCallback e s).1.run = false ∧
    (handleJoyrideCallback e s).2 = [("tourViewed", "true")] := by
  unfold handleJoyrideCallback
  rw [if_neg hs, if_pos ht, if_pos ha]
  exact ⟨rfl, rfl⟩

/-- C4 witness: the theorem applied at a concrete close event. -/
theorem close_stops_and_persists_once_witness :
    (handleJoyrideCallback
        ⟨JAction.close, 2, JStatus.running, JEventType.stepAfter⟩
        ⟨true, [sampleStep], 2, 0⟩).1.run = false ∧
    (handleJoyrideCallback
        ⟨JAction.close, 2, JStatus.running, JEventType.stepAfter⟩
        ⟨true, [sampleStep], 2, 0⟩).2 = [("tourViewed", "true")] :=
  close_stops_and_persists_once _ _ (Or.inl rfl) (by decide) rfl

/-- C7: a target-not-found event produces exactly the same transition
(state and storage writes) as a step-after event with the same action,
index and status: the two event types are indistinguishable to the
sequencer. -/
theorem targetNotFound_eq_stepAfter (s : TourState) (a : JAction)
    (i : Int) (st : JStatus) :
    handleJoyrideCallback ⟨a, i, st, JEventType.targetNotFound⟩ s =
      handleJoyrideCallback ⟨a, i, st, JEventType.stepAfter⟩ s := by
  simp [handleJoyrideCallback]

/-- C8: `addSteps` appends the extra steps at the end of the step
sequence while leaving `run` and `stepIndex` unchanged. -/
theorem addSteps_appends_preserving_position (ns : List TourStep)
    (now : Nat) (s : TourState) :
    (addSteps ns now s).steps = s.steps ++ ns ∧
    (addSteps ns now s).run = s.run ∧
    (addSteps ns now s).stepIndex = s.stepIndex :=
  ⟨rfl, rfl, rfl⟩

/-- C10: when the current location equals the target path,
`handleNavigation` is a complete no-op: the state (including `run` and
`tourKey`) is unchanged, no navigation happens and no timer is
scheduled. -/
theorem handleNavigation_same_path_noop (p : String) (s : TourState) :
    handleNavigation p p s =
      { state := s, navigatedTo := none, timerScheduled := false } := by
  simp [handleNavigation]

/-- C6: starting the tour with an empty step override falls back to the
default `INITIAL_STEPS` list and activates immediately (the first
default step has no navigation requirement). -/
theorem startTour_empty_override_defaults (init : List TourStep)
    (path : String) (now : Nat) :
    (startTour init [] path now).state.run = true ∧
    (startTour init [] path now).state.steps = INITIAL_STEPS ∧
    (startTour init [] path now).state.stepIndex = 0 :=
  ⟨rfl, rfl, rfl⟩

/-- C1 counterexample: from a state satisfying the bound (index 0 of a
one-step list, running), a PREV action at index 0 with a step-after
event leaves `run = true` with `stepIndex = -1`, violating the bound. -/
theorem prev_at_zero_breaks_bound :
    (0 ≤ (⟨true, [sampleStep], 0, 0⟩ : TourState).stepIndex ∧
      (⟨true, [sampleStep], 0, 0⟩ : TourState).stepIndex <
        ((⟨true, [sampleStep], 0, 0⟩ : TourState).steps.length : Int)) ∧
    (handleJoyrideCallback
        ⟨JAction.prev, 0, JStatus.running, JEventType.stepAfter⟩
        ⟨true, [sampleStep], 0, 0⟩).1.run = true ∧
    (handleJoyrideCallback
        ⟨JAction.prev, 0, JStatus.running, JEventType.stepAfter⟩
        ⟨true, [sampleStep], 0, 0⟩).1.stepIndex = -1 := by
  decide

/-- C1 (amended): a transition of `handleJoyrideCallback` that leaves
`run = true` preserves the bound `0 ≤ stepIndex < length steps` provided
that, for an advancing event (step-after or target-not-found, neither
finished/skipped status nor close action), the advanced index
`event.index ± 1` itself lies within the bound; the unguarded boundary
advances (PREV at index 0, forward at the last index) are excluded, as
the code performs no clamping. -/
theorem advance_preserves_bound (s : TourState) (e : JoyrideEvent)
    (hinv : s.run = true →
      0 ≤ s.stepIndex ∧ s.stepIndex < (s.steps.length : Int))
    (hadv : ¬(e.status = JStatus.finished ∨ e.status = JStatus.skipped) →
      (e.type = JEventType.stepAfter ∨
        e.type = JEventType.targetNotFound) →
      e.action ≠ JAction.close →
      0 ≤ nextStepIndex e.action e.index ∧
        nextStepIndex e.action e.index < (s.steps.length : Int)) :
    (handleJoyrideCallback e s).1.run = true →
      0 ≤ (handleJoyrideCallback e s).1.stepIndex ∧
      (handleJoyrideCallback e s).1.stepIndex <
        ((handleJoyrideCallback e s).1.steps.length : Int) := by
  intro hrun
  unfold handleJoyrideCallback at hrun ⊢
  by_cases h1 : e.status = JStatus.finished ∨ e.status = JStatus.skipped
  · rw [if_pos h1] at hrun
    exact absurd hrun (by simp)
  · rw [if_neg h1] at hrun ⊢
    by_cases h2 : e.type = JEventType.stepAfter ∨
        e.type = JEventType.targetNotFound
    · rw [if_pos h2] at hrun ⊢
      by_cases h3 : e.action = JAction.close
      · rw [if_pos h3] at hrun
        exact absurd hrun (by simp)
      · rw [if_neg h3] at hrun ⊢
        exact hadv h1 h2 h3
    · rw [if_neg h2] at hrun ⊢
      exact hinv hrun

/-- C1 witness: the amended theorem applied at a concrete in-range
forward advance (index 0 of a two-step list). -/
theorem advance_preserves_bound_witness :
    0 ≤ (handleJoyrideCallback
        ⟨JAction.next, 0, JStatus.running, JEventType.stepAfter⟩
        ⟨true, [sampleStep, sampleStep], 0, 0⟩).1.stepIndex ∧
    (handleJoyrideCallback
        ⟨JAction.next, 0, JStatus.running, JEventType.stepAfter⟩
        ⟨true, [sampleStep, sampleStep], 0, 0⟩).1.stepIndex <
      ((handleJoyrideCallback
        ⟨JAction.next, 0, JStatus.running, JEventType.stepAfter⟩
        ⟨true, [sampleStep, sampleStep], 0, 0⟩).1.steps.length : Int) :=
  advance_preserves_bound _ _ (fun _ => by decide) (fun _ _ _ => by decide)
    (by decide)

/-- C2 counterexample: a running tour whose current step requires the
page the browser is already on (`navigateTo = "/"`, location `"/"`) is
left completely untouched by the navigation effect: no pause, no timer,
and the render key stays 42 — so such a step does not regenerate the
key. -/
theorem nav_step_on_same_page_keeps_key :
    (navigationEffect "/"
        ⟨true, [sampleNavStep], 0, 42⟩).state =
      (⟨true, [sampleNavStep], 0, 42⟩ : TourState) ∧
    (navigationEffect "/"
        ⟨true, [sampleNavStep], 0, 42⟩).timerScheduled = false ∧
    (navigationEffect "/"
        ⟨true, [sampleNavStep], 0, 42⟩).state.tourKey = 42 := by
  decide

/-- C2 (amended): reaching a step with a (truthy) `navigateTo` path while
the tour runs regenerates the render key whenever the current location
differs from that path: the effect pauses the tour, navigates, schedules
the settle timer (leaving `tourKey` unchanged until then), and the
timer's body reactivates with `tourKey` set to the fresh clock reading;
a step whose path equals the current location is a no-op instead. -/
theorem nav_step_regenerates_key (path p : String) (now : Nat)
    (s : TourState) (st : TourStep)
    (hrun : s.run = true)
    (hget : getStepAt s.steps s.stepIndex = some st)
    (hnav : truthyPath st.navigateTo = some p)
    (hne : path ≠ p) :
    (navigationEffect path s).state.run = false ∧
    (navigationEffect path s).navigatedTo = some p ∧
    (navigationEffect path s).timerScheduled = true ∧
    (navigationEffect path s).state.tourKey = s.tourKey ∧
    (resumeAfterDelay now (navigationEffect path s).state).run = true ∧
    (resumeAfterDelay now (navigationEffect path s).state).tourKey =
      now := by
  unfold navigationEffect
  rw [hrun]
  simp only [if_true, hget, hnav]
  unfold handleNavigation
  rw [if_pos hne]
  exact ⟨rfl, rfl, rfl, rfl, rfl, rfl⟩

/-- C2 witness: the amended theorem applied at a concrete
navigation-requiring step reached from a different page. -/
theorem nav_step_regenerates_key_witness :
    (navigationEffect "/profile"
        ⟨true, [sampleNavStep], 0, 3⟩).state.run = false ∧
    (navigationEffect "/profile"
        ⟨true, [sampleNavStep], 0, 3⟩).navigatedTo = some "/" ∧
    (navigationEffect "/profile"
        ⟨true, [sampleNavStep], 0, 3⟩).timerScheduled = true ∧
    (navigationEffect "/profile"
        ⟨true, [sampleNavStep], 0, 3⟩).state.tourKey = 3 ∧
    (resumeAfterDelay 7 (navigationEffect "/profile"
        ⟨true, [sampleNavStep], 0, 3⟩).state).run = true ∧
    (resumeAfterDelay 7 (navigationEffect "/profile"
        ⟨true, [sampleNavStep], 0, 3⟩).state).tourKey = 7 :=
  nav_step_regenerates_key "/profile" "/" 7 _ sampleNavStep rfl (by decide)
    (by decide) (by decide)

/-- C5: `startTour` resets the index to 0 with the effective step list;
when the first effective step has a (truthy) required page differing
from the current location it navigates before activating (`run` becomes
true only through the settle timer's body), and otherwise it activates
immediately with no navigation. -/
theorem startTour_resets_and_navigates (init ss : List TourStep)
    (path : String) (now : Nat) :
    (startTour init ss path now).state.stepIndex = 0 ∧
    (startTour init ss path now).state.steps = effectiveStepsOf ss ∧
    (∀ p, firstStepNav (effectiveStepsOf ss) = some p → path ≠ p →
      (startTour init ss path now).state.run = false ∧
      (startTour init ss path now).navigatedTo = some p ∧
      (startTour init ss path now).timerScheduled = true ∧
      ∀ t, (resumeAfterDelay t (startTour init ss path now).state).run =
        true) ∧
    ((firstStepNav (effectiveStepsOf ss) = none ∨
        firstStepNav (effectiveStepsOf ss) = some path) →
      (startTour init ss path now).state.run = true ∧
      (startTour init ss path now).navigatedTo = none ∧
      (startTour init ss path now).timerScheduled = false) := by
  rcases h : firstStepNav (effectiveStepsOf ss) with _ | p0
  · refine ⟨?_, ?_, ?_, ?_⟩ <;>
      simp [startTour, h, handleNavigation, resumeAfterDelay]
  · by_cases hp : path = p0
    · refine ⟨?_, ?_, ?_, ?_⟩ <;>
        simp [startTour, h, hp, handleNavigation, resumeAfterDelay]
    · have hp' : p0 ≠ path := fun he => hp he.symm
      refine ⟨?_, ?_, ?_, ?_⟩ <;>
        simp [startTour, h, hp, hp', handleNavigation, resumeAfterDelay]

/-- C5 witness: the theorem applied at a concrete start whose first step
requires a different page. -/
theorem startTour_resets_and_navigates_witness :
    (startTour [] [sampleNavStep] "/profile" 5).state.stepIndex = 0 ∧
    (startTour [] [sampleNavStep] "/profile" 5).state.run = false ∧
    (startTour [] [sampleNavStep] "/profile" 5).navigatedTo = some "/" ∧
    (startTour [] [sampleNavStep] "/profile" 5).timerScheduled = true ∧
    (resumeAfterDelay 9
      (startTour [] [sampleNavStep] "/profile" 5).state).run = true :=
  ⟨(startTour_resets_and_navigates [] [sampleNavStep] "/profile" 5).1,
    ((startTour_resets_and_navigates [] [sampleNavStep] "/profile" 5).2.2.1
      "/" (by decide) (by decide)).1,
    ((startTour_resets_and_navigates [] [sampleNavStep] "/profile" 5).2.2.1
      "/" (by decide) (by decide)).2.1,
    ((startTour_resets_and_navigates [] [sampleNavStep] "/profile" 5).2.2.1
      "/" (by decide) (by decide)).2.2.1,
    ((startTour_resets_and_navigates [] [sampleNavStep] "/profile" 5).2.2.1
      "/" (by decide) (by decide)).2.2.2 9⟩

/-- Every key-assigning operation writes the clock reading it was given
into `tourKey`. -/
theorem applyOp_tourKey_of_assignsKey (init : List TourStep)
    (op : TourOp) (now : Nat) (s : TourState)
    (h : assignsKey op = true) :
    (applyOp init op now s).tourKey = now := by
  cases op with
  | startOp ss path =>
    show (startTour init ss path now).state.tourKey = now
    rcases h' : firstStepNav (effectiveStepsOf ss) with _ | p
    · simp [startTour, h']
    · by_cases hp : path = p <;>
        simp [startTour, h', hp, handleNavigation]
  | callbackOp e => simp [assignsKey] at h
  | addOp ns => rfl
  | setStepsOp ns => rfl
  | navEffectOp path => simp [assignsKey] at h
  | resumeOp => rfl
  | setRunOp b => simp [assignsKey] at h

/-- The keys observed along a trace are exactly the clock readings of its
key-assigning operations, independently of the starting state. -/
theorem keysAlong_eq_filter (init : List TourStep)
    (tr : List (TourOp × Nat)) :
    ∀ s, keysAlong init tr s =
      (tr.filter (fun q => assignsKey q.1)).map Prod.snd := by
  induction tr with
  | nil => intro s; rfl
  | cons hd tl ih =>
    intro s
    obtain ⟨op, now⟩ := hd
    by_cases h : assignsKey op = true
    · simp [keysAlong, List.filter_cons, h,
        applyOp_tourKey_of_assignsKey init op now s h, ih]
    · simp [keysAlong, List.filter_cons, h, ih]

/-- C9 counterexample: two `addSteps` calls under the same clock reading
(`Date.now()` has millisecond resolution and can repeat) assign the keys
`[5, 5]`: the second assigned key is not strictly greater than the
first. -/
theorem same_clock_reading_repeats_key :
    keysAlong [] [(TourOp.addOp [], 5), (TourOp.addOp [], 5)]
      ⟨false, [], 0, 0⟩ = [5, 5] ∧
    ¬ List.Pairwise (fun a b : Nat => a < b)
      (keysAlong [] [(TourOp.addOp [], 5), (TourOp.addOp [], 5)]
        ⟨false, [], 0, 0⟩) := by
  refine ⟨rfl, fun hp => ?_⟩
  have h5 : (5 : Nat) < 5 :=
    (List.pairwise_cons.mp hp).1 5 (List.mem_singleton.mpr rfl)
  exact absurd h5 (by decide)

/-- C9 (amended): along any trace of sequencer operations whose clock
readings are strictly increasing, the successively assigned render keys
are strictly increasing; with a clock that can repeat a reading (as
`Date.now()` does within a millisecond), consecutive keys can only be
guaranteed non-decreasing, not strictly increasing. -/
theorem render_keys_increase_with_clock (init : List TourStep)
    (tr : List (TourOp × Nat)) (s : TourState)
    (h : List.Pairwise (fun a b : Nat => a < b) (tr.map Prod.snd)) :
    List.Pairwise (fun a b : Nat => a < b) (keysAlong init tr s) := by
  rw [keysAlong_eq_filter]
  exact h.sublist (List.Sublist.map Prod.snd (List.filter_sublist tr))

/-- C9 witness: the amended theorem applied to a concrete two-operation
trace with strictly increasing clock readings. -/
theorem render_keys_increase_with_clock_witness :
    List.Pairwise (fun a b : Nat => a < b)
      (([(TourOp.addOp [], 1), (TourOp.resumeOp, 2)] :
        List (TourOp × Nat)).map Prod.snd) ∧
    List.Pairwise (fun a b : Nat => a < b)
      (keysAlong [] [(TourOp.addOp [], 1), (TourOp.resumeOp, 2)]
        ⟨false, [], 0, 0⟩) :=
  ⟨List.pairwise_cons.mpr
      ⟨fun b hb => by
        rw [List.mem_singleton.mp hb]; exact Nat.one_lt_two,
        List.pairwise_singleton _ _⟩,
    render_keys_increase_with_clock [] _ _
      (List.pairwise_cons.mpr
        ⟨fun b hb => by
          rw [List.mem_singleton.mp hb]; exact Nat.one_lt_two,
          List.pairwise_singleton _ _⟩)⟩
